import Mathlib

/-!
Shallow embedding of the wishlist backend (Go, gin + gorm).

Data model from `backend/models/models.go`; controllers from
`backend/controllers` (CreateWishlist / GetWishlist / ShareWishlist,
AddItem / PurchaseItem, GetSharedWishlist) and route wiring from
`backend/routes/routes.go`.

The database is modelled as an in-memory record of entity lists; gorm
`First` with a `Where` clause becomes `List.find?`, `Preload` becomes a
filter over the child table, and `Create` appends.  Generated values
(uuid.New, timestamps) are passed in as explicit parameters.  The two
storage calls whose errors the controllers branch on (the entity fetch
and the `Create`) take an explicit failure flag; the final
`Update("purchased", true)` in PurchaseItem ignores its error in the Go
code, so it is modelled as the unconditional state update it performs.
-/

namespace WishlistApp

/-- `models.User` from backend/models/models.go. -/
structure User where
  id : String
  name : String
  email : String
  password : String
  createdAt : Nat
deriving Repr, DecidableEq

/-- `models.Wishlist` from backend/models/models.go (the `Items`
association is represented by the items table, filtered by
`wishlistID`). -/
structure Wishlist where
  id : String
  userID : String
  title : String
  description : String
  createdAt : String
deriving Repr, DecidableEq

/-- `models.Item` from backend/models/models.go (the `Purchases`
association is represented by the purchases table, filtered by
`itemID`). -/
structure Item where
  id : String
  wishlistID : String
  name : String
  description : String
  purchased : Bool
  createdAt : String
deriving Repr, DecidableEq

/-- `models.Purchase` from backend/models/models.go. -/
structure Purchase where
  id : String
  itemID : String
  userID : String
  purchasedAt : String
deriving Repr, DecidableEq

/-- `models.Share` from backend/models/models.go.  `ExpiresAt` is a Go
`time.Time` value; `0` stands for the zero time, i.e. "not set" (no
controller ever sets it). -/
structure Share where
  id : String
  wishlistID : String
  token : String
  createdAt : Nat
  expiresAt : Nat
deriving Repr, DecidableEq

/-- The relational store behind the global `models.DB` handle. -/
structure DBState where
  users : List User
  wishlists : List Wishlist
  items : List Item
  purchases : List Purchase
  shares : List Share
deriving Repr, DecidableEq

/-- gorm `Preload("Items")`: the items belonging to a wishlist. -/
def wishlistItems (s : DBState) (wid : String) : List Item :=
  s.items.filter (fun it => it.wishlistID == wid)

/-- gorm `Preload("Items.Purchases")`: the purchases on an item. -/
def itemPurchases (s : DBState) (iid : String) : List Purchase :=
  s.purchases.filter (fun p => p.itemID == iid)

/-! ## CreateWishlist (controllers, wishlist file) -/

/-- `CreateWishlistInput`. -/
structure CreateWishlistInput where
  title : String
  description : String
deriving Repr, DecidableEq

inductive CreateWishlistResult
  | badRequest
  | unauthenticated
  | createError
  | ok (w : Wishlist)
deriving Repr, DecidableEq

/-- `CreateWishlist`: bind input (title required), resolve identity,
insert the wishlist with the caller as owner. -/
def CreateWishlist (s : DBState) (input : CreateWishlistInput)
    (userID : Option String) (newID : String) (createFail : Bool) :
    CreateWishlistResult × DBState :=
  if input.title = "" then (.badRequest, s)
  else
    match userID with
    | none => (.unauthenticated, s)
    | some uid =>
      if createFail then (.createError, s)
      else
        let w : Wishlist :=
          { id := newID, userID := uid, title := input.title
            description := input.description, createdAt := "" }
        (.ok w, { s with wishlists := s.wishlists ++ [w] })

/-! ## GetWishlist (controllers, wishlist file) -/

/-- One entry of the owner view: the gin.H literal built in
`GetWishlist` holds exactly these five keys. -/
structure OwnerItemView where
  id : String
  name : String
  description : String
  purchased : Bool
  createdAt : String
deriving Repr, DecidableEq

/-- The owner-view response body of `GetWishlist`. -/
structure OwnerWishlistView where
  id : String
  title : String
  description : String
  createdAt : String
  items : List OwnerItemView
deriving Repr, DecidableEq

inductive GetWishlistResult
  | unauthenticated
  | notFound
  | fetchError
  | forbidden
  | ok (view : OwnerWishlistView)
deriving Repr, DecidableEq

/-- The five-field projection applied to each item of the owner view. -/
def ownerItemView (it : Item) : OwnerItemView :=
  { id := it.id, name := it.name, description := it.description
    purchased := it.purchased, createdAt := it.createdAt }

/-- `GetWishlist`: identity, fetch with `Preload("Items")`, ownership
check, then the projection that drops purchaser identities. -/
def GetWishlist (s : DBState) (wishlistID : String)
    (userID : Option String) (fetchFail : Bool) : GetWishlistResult :=
  match userID with
  | none => .unauthenticated
  | some uid =>
    if fetchFail then .fetchError
    else
      match s.wishlists.find? (fun w => w.id == wishlistID) with
      | none => .notFound
      | some w =>
        if w.userID != uid then .forbidden
        else
          .ok { id := w.id, title := w.title
                description := w.description, createdAt := w.createdAt
                items := (wishlistItems s wishlistID).map ownerItemView }

/-! ## ShareWishlist (controllers, wishlist file) -/

inductive ShareWishlistResult
  | unauthenticated
  | notFound
  | fetchError
  | forbidden
  | createError
  | ok (shareableLink : String)
deriving Repr, DecidableEq

/-- `ShareWishlist`: identity, fetch wishlist, ownership check, then
insert a new Share carrying a freshly generated token (uuid.New) and no
`ExpiresAt`, and return the shareable link. -/
def ShareWishlist (s : DBState) (wishlistID : String)
    (userID : Option String) (shareToken newShareID : String) (now : Nat)
    (fetchFail createFail : Bool) : ShareWishlistResult × DBState :=
  match userID with
  | none => (.unauthenticated, s)
  | some uid =>
    if fetchFail then (.fetchError, s)
    else
      match s.wishlists.find? (fun w => w.id == wishlistID) with
      | none => (.notFound, s)
      | some w =>
        if w.userID != uid then (.forbidden, s)
        else if createFail then (.createError, s)
        else
          let share : Share :=
            { id := newShareID, wishlistID := wishlistID
              token := shareToken, createdAt := now, expiresAt := 0 }
          (.ok ("http://yourfrontend.com/shared/" ++ shareToken),
           { s with shares := s.shares ++ [share] })

/-! ## AddItem (controllers, item file) -/

/-- `AddItemInput` (name has `binding:"required"`). -/
structure AddItemInput where
  name : String
  description : String
deriving Repr, DecidableEq

inductive AddItemResult
  | badRequest
  | unauthenticated
  | notFound
  | fetchError
  | forbidden
  | createError
  | ok (item : Item)
deriving Repr, DecidableEq

/-- `AddItem`: bind input (name required), identity, fetch wishlist,
ownership check, insert the item (Purchased is the Go zero value
`false`). -/
def AddItem (s : DBState) (wishlistID : String) (input : AddItemInput)
    (userID : Option String) (newItemID : String) (now : String)
    (fetchFail createFail : Bool) : AddItemResult × DBState :=
  if input.name = "" then (.badRequest, s)
  else
    match userID with
    | none => (.unauthenticated, s)
    | some uid =>
      if fetchFail then (.fetchError, s)
      else
        match s.wishlists.find? (fun w => w.id == wishlistID) with
        | none => (.notFound, s)
        | some w =>
          if w.userID != uid then (.forbidden, s)
          else if createFail then (.createError, s)
          else
            let item : Item :=
              { id := newItemID, wishlistID := wishlistID
                name := input.name, description := input.description
                purchased := false, createdAt := now }
            (.ok item, { s with items := s.items ++ [item] })

/-! ## PurchaseItem (controllers, item file) -/

inductive PurchaseItemResult
  | unauthenticated
  | notFound
  | fetchError
  | alreadyPurchased
  | createError
  | ok
deriving Repr, DecidableEq

/-- `PurchaseItem`: identity, fetch item, reject if a Purchase for
(item, user) already exists, insert the Purchase, then
`Update("purchased", true)` on the fetched item's row (its error is
ignored by the Go code). -/
def PurchaseItem (s : DBState) (itemID : String) (userID : Option String)
    (newPurchaseID : String) (now : String)
    (fetchFail createFail : Bool) : PurchaseItemResult × DBState :=
  match userID with
  | none => (.unauthenticated, s)
  | some uid =>
    if fetchFail then (.fetchError, s)
    else
      match s.items.find? (fun it => it.id == itemID) with
      | none => (.notFound, s)
      | some item =>
        match s.purchases.find?
            (fun p => p.itemID == itemID && p.userID == uid) with
        | some _ => (.alreadyPurchased, s)
        | none =>
          if createFail then (.createError, s)
          else
            let purchase : Purchase :=
              { id := newPurchaseID, itemID := itemID
                userID := uid, purchasedAt := now }
            (.ok,
             { s with
                purchases := s.purchases ++ [purchase]
                items := s.items.map (fun it =>
                  if it.id == item.id then { it with purchased := true }
                  else it) })

/-! ## GetSharedWishlist (controllers, shared file) -/

/-- `SharedItem`: `PurchasedBy` is a Go string with `json:"omitempty"`,
so the empty string means the field is absent from the response. -/
structure SharedItem where
  id : String
  name : String
  description : String
  purchased : Bool
  purchasedBy : String
deriving Repr, DecidableEq

/-- `SharedWishlistResponse`. -/
structure SharedWishlistResponse where
  id : String
  title : String
  description : String
  createdAt : String
  items : List SharedItem
deriving Repr, DecidableEq

inductive SharedResult
  | invalidOrExpired
  | shareFetchError
  | wishlistFetchError
  | ok (resp : SharedWishlistResponse)
deriving Repr, DecidableEq

/-- The per-item body of the loop in `GetSharedWishlist`: copy the four
public fields, and when the requester is authenticated scan the item's
purchases; on a match set `PurchasedBy = "You"`. -/
def sharedItemOf (s : DBState) (userID : Option String) (it : Item) :
    SharedItem :=
  { id := it.id, name := it.name, description := it.description
    purchased := it.purchased
    purchasedBy :=
      match userID with
      | none => ""
      | some uid =>
        if (itemPurchases s it.id).any (fun p => p.userID == uid) then "You"
        else "" }

/-- `GetSharedWishlist`: look the Share up by exact token (absence is
404 invalid-or-expired; the expiry check in the Go source is commented
out and never runs), fetch the wishlist with `Preload("Items.Purchases")`
(any failure there is a 500), then project each item through
`sharedItemOf` for the current viewer (authenticated or not). -/
def GetSharedWishlist (s : DBState) (token : String)
    (userID : Option String) (fetchFail : Bool) : SharedResult :=
  if fetchFail then .shareFetchError
  else
    match s.shares.find? (fun sh => sh.token == token) with
    | none => .invalidOrExpired
    | some share =>
      match s.wishlists.find? (fun w => w.id == share.wishlistID) with
      | none => .wishlistFetchError
      | some w =>
        .ok { id := w.id, title := w.title
              description := w.description, createdAt := w.createdAt
              items := (wishlistItems s share.wishlistID).map
                (sharedItemOf s userID) }

/-! ## Reachable database states

States produced from the empty store by the mutating controllers.  The
generated entity ids are uuid values; the freshness of a generated item
id with respect to the purchases table (which uuid generation gives with
overwhelming probability) is recorded as a hypothesis on the AddItem
step. -/

/-- Reachability by the mutating controllers, from the empty store. -/
inductive Reachable : DBState → Prop
  | init : Reachable ⟨[], [], [], [], []⟩
  | createWishlist (s : DBState) (input : CreateWishlistInput)
      (uid : Option String) (nid : String) (cf : Bool) :
      Reachable s → Reachable (CreateWishlist s input uid nid cf).2
  | addItem (s : DBState) (wid : String) (input : AddItemInput)
      (uid : Option String) (nid now : String) (ff cf : Bool)
      (hfresh : ∀ p ∈ s.purchases, p.itemID ≠ nid) :
      Reachable s → Reachable (AddItem s wid input uid nid now ff cf).2
  | purchaseItem (s : DBState) (iid : String) (uid : Option String)
      (pid now : String) (ff cf : Bool) :
      Reachable s → Reachable (PurchaseItem s iid uid pid now ff cf).2
  | shareWishlist (s : DBState) (wid : String) (uid : Option String)
      (tok sid : String) (now : Nat) (ff cf : Bool) :
      Reachable s → Reachable (ShareWishlist s wid uid tok sid now ff cf).2

/-- The derived-flag invariant of the data model: an item is flagged
purchased exactly when some Purchase row references it. -/
def purchasedInvariant (s : DBState) : Prop :=
  ∀ it ∈ s.items, it.purchased = true ↔ ∃ p ∈ s.purchases, p.itemID = it.id

/-! ## Shape lemmas for the mutating controllers -/

lemma find?_append_some {α} (p : α → Bool) {l₁ : List α} (l₂ : List α)
    {a : α} (h : l₁.find? p = some a) : (l₁ ++ l₂).find? p = some a := by
  induction l₁ with
  | nil => simp [List.find?] at h
  | cons x xs ih =>
    rw [List.cons_append]
    cases hx : p x with
    | true =>
      rw [List.find?_cons_of_pos _ hx] at h ⊢
      exact h
    | false =>
      rw [List.find?_cons_of_neg _ (by simp [hx])] at h ⊢
      exact ih h

lemma find?_append_none {α} (p : α → Bool) {l₁ : List α} (l₂ : List α)
    (h : l₁.find? p = none) : (l₁ ++ l₂).find? p = l₂.find? p := by
  induction l₁ with
  | nil => rfl
  | cons x xs ih =>
    rw [List.cons_append]
    cases hx : p x with
    | true =>
      rw [List.find?_cons_of_pos _ hx] at h
      exact absurd h (by simp)
    | false =>
      rw [List.find?_cons_of_neg _ (by simp [hx])] at h ⊢
      exact ih h

lemma CreateWishlist_state (s : DBState) (input : CreateWishlistInput)
    (uid : Option String) (nid : String) (cf : Bool) :
    (CreateWishlist s input uid nid cf).2 = s ∨
    ∃ w, (CreateWishlist s input uid nid cf).2 =
      { s with wishlists := s.wishlists ++ [w] } := by
  unfold CreateWishlist
  split
  · exact .inl rfl
  · split
    · exact .inl rfl
    · split
      · exact .inl rfl
      · exact .inr ⟨_, rfl⟩

lemma ShareWishlist_state (s : DBState) (wid : String) (uid : Option String)
    (tok sid : String) (now : Nat) (ff cf : Bool) :
    (ShareWishlist s wid uid tok sid now ff cf).2 = s ∨
    ∃ sh, (ShareWishlist s wid uid tok sid now ff cf).2 =
      { s with shares := s.shares ++ [sh] } := by
  unfold ShareWishlist
  split
  · exact .inl rfl
  · split
    · exact .inl rfl
    · split
      · exact .inl rfl
      · split
        · exact .inl rfl
        · split
          · exact .inl rfl
          · exact .inr ⟨_, rfl⟩

lemma AddItem_state (s : DBState) (wid : String) (input : AddItemInput)
    (uid : Option String) (nid now : String) (ff cf : Bool) :
    (AddItem s wid input uid nid now ff cf).2 = s ∨
    (AddItem s wid input uid nid now ff cf).2 =
      { s with items := s.items ++
          [⟨nid, wid, input.name, input.description, false, now⟩] } := by
  unfold AddItem
  split
  · exact .inl rfl
  · split
    · exact .inl rfl
    · split
      · exact .inl rfl
      · split
        · exact .inl rfl
        · split
          · exact .inl rfl
          · split
            · exact .inl rfl
            · exact .inr rfl

lemma PurchaseItem_state (s : DBState) (iid : String) (uid : Option String)
    (pid now : String) (ff cf : Bool) :
    (PurchaseItem s iid uid pid now ff cf).2 = s ∨
    ∃ u item, uid = some u ∧
      s.items.find? (fun it => it.id == iid) = some item ∧
      (PurchaseItem s iid uid pid now ff cf).1 = .ok ∧
      (PurchaseItem s iid uid pid now ff cf).2 =
        { s with
            purchases := s.purchases ++ [⟨pid, iid, u, now⟩]
            items := s.items.map (fun it =>
              if it.id == item.id then { it with purchased := true }
              else it) } := by
  unfold PurchaseItem
  split
  · exact .inl rfl
  · rename_i u
    split
    · exact .inl rfl
    · split
      · exact .inl rfl
      · rename_i item hitem
        split
        · exact .inl rfl
        · split
          · exact .inl rfl
          · exact .inr ⟨u, item, rfl, hitem, rfl, rfl⟩

/-! ## Sample data used by witnesses and counterexamples -/

/-- A wishlist owned by user "alice". -/
def sampleWishlist : Wishlist :=
  { id := "w1", userID := "alice", title := "Bike", description := ""
    createdAt := "t0" }

/-- An item on the sample wishlist, already purchased. -/
def sampleItem : Item :=
  { id := "i1", wishlistID := "w1", name := "Trek 520", description := ""
    purchased := true, createdAt := "t1" }

/-- A purchase of the sample item by user "bob". -/
def samplePurchase : Purchase :=
  { id := "p1", itemID := "i1", userID := "bob", purchasedAt := "t2" }

/-- A share of the sample wishlist under token "tok". -/
def sampleShare : Share :=
  { id := "s1", wishlistID := "w1", token := "tok", createdAt := 0
    expiresAt := 0 }

/-- A store with one wishlist, one purchased item, one purchase by
"bob" and one share token. -/
def sampleState : DBState :=
  { users := [], wishlists := [sampleWishlist], items := [sampleItem]
    purchases := [samplePurchase], shares := [sampleShare] }

/-! ## C5 -/

/-- C5: in every reachable state, an item's purchased flag is true iff
some Purchase row references it; AddItem (item created unpurchased) and
PurchaseItem (Purchase row inserted together with the flag update)
preserve this, as do the other controllers. -/
theorem C5_purchased_flag_invariant (s : DBState) (h : Reachable s) :
    purchasedInvariant s := by
  induction h with
  | init =>
    intro it hit
    simp at hit
  | createWishlist s input uid nid cf _ ih =>
    rcases CreateWishlist_state s input uid nid cf with hs | ⟨w, hs⟩ <;>
      rw [hs]
    · exact ih
    · exact ih
  | shareWishlist s wid uid tok sid now ff cf _ ih =>
    rcases ShareWishlist_state s wid uid tok sid now ff cf with hs | ⟨sh, hs⟩ <;>
      rw [hs]
    · exact ih
    · exact ih
  | addItem s wid input uid nid now ff cf hfresh _ ih =>
    rcases AddItem_state s wid input uid nid now ff cf with hs | hs <;> rw [hs]
    · exact ih
    · intro it hit
      simp only [List.mem_append, List.mem_singleton] at hit
      rcases hit with hit | rfl
      · exact ih it hit
      · constructor
        · intro hfalse
          simp at hfalse
        · rintro ⟨p, hp, hpid⟩
          exact absurd hpid (hfresh p hp)
  | purchaseItem s iid uid pid now ff cf _ ih =>
    rcases PurchaseItem_state s iid uid pid now ff cf with
      hs | ⟨u, item, huid, hitem, _, hs⟩
    · rw [hs]; exact ih
    · rw [hs]
      have hid : item.id = iid := by
        have := List.find?_some hitem
        simpa using this
      intro it hit
      simp only [List.mem_map] at hit
      rcases hit with ⟨it0, hit0, rfl⟩
      cases hcase : it0.id == item.id with
      | true =>
        simp only [hcase, if_true]
        constructor
        · intro _
          exact ⟨⟨pid, iid, u, now⟩, by simp,
            by simp [hid ▸ (beq_iff_eq.mp hcase)]⟩
        · intro _
          trivial
      | false =>
        simp only [hcase, Bool.false_eq_true, if_false]
        have hne : it0.id ≠ item.id := by simpa using hcase
        rw [ih it0 hit0]
        constructor
        · rintro ⟨p, hp, hpid⟩
          exact ⟨p, List.mem_append_left _ hp, hpid⟩
        · rintro ⟨p, hp, hpid⟩
          rcases List.mem_append.mp hp with hp | hp
          · exact ⟨p, hp, hpid⟩
          · simp only [List.mem_singleton] at hp
            subst hp
            simp only at hpid
            exact absurd (hid ▸ hpid.symm) hne

/-- C5 witness: the invariant holds in the concrete state reached by
creating a wishlist, adding an item, and purchasing it. -/
theorem C5_purchased_flag_invariant_witness :
    purchasedInvariant
      (PurchaseItem
        (AddItem
          (CreateWishlist ⟨[], [], [], [], []⟩ ⟨"Bike", ""⟩ (some "alice")
            "w1" false).2
          "w1" ⟨"Trek 520", ""⟩ (some "alice") "i1" "t1" false false).2
        "i1" (some "bob") "p1" "t2" false false).2 :=
  C5_purchased_flag_invariant _
    (Reachable.purchaseItem _ "i1" (some "bob") "p1" "t2" false false
      (Reachable.addItem _ "w1" ⟨"Trek 520", ""⟩ (some "alice") "i1" "t1"
        false false (by decide)
        (Reachable.createWishlist _ ⟨"Bike", ""⟩ (some "alice") "w1" false
          Reachable.init)))

/-! ## Shape lemmas for the shared view -/

lemma GetSharedWishlist_ok (s : DBState) (tok : String) (v : Option String)
    (r : SharedWishlistResponse)
    (h : GetSharedWishlist s tok v false = .ok r) :
    ∃ share, s.shares.find? (fun sh => sh.token == tok) = some share ∧
      ∃ w, s.wishlists.find? (fun x => x.id == share.wishlistID) = some w ∧
        r = ⟨w.id, w.title, w.description, w.createdAt,
             (wishlistItems s share.wishlistID).map (sharedItemOf s v)⟩ := by
  unfold GetSharedWishlist at h
  simp only [Bool.false_eq_true, if_false] at h
  split at h
  · simp at h
  · rename_i share hshare
    split at h
    · simp at h
    · rename_i w hw
      refine ⟨share, hshare, w, hw, ?_⟩
      injection h with h2
      exact h2.symm

lemma any_itemPurchases (s : DBState) (iid uid : String) :
    (itemPurchases s iid).any (fun p => p.userID == uid) = true ↔
      ∃ p ∈ s.purchases, p.itemID = iid ∧ p.userID = uid := by
  simp [itemPurchases, List.any_eq_true, List.mem_filter, and_assoc]

lemma sharedItemOf_purchasedBy (s : DBState) (v : Option String) (it : Item) :
    ((sharedItemOf s v it).purchasedBy = "You" ↔
      ∃ uid, v = some uid ∧
        ∃ p ∈ s.purchases, p.itemID = it.id ∧ p.userID = uid) ∧
    ((sharedItemOf s v it).purchasedBy = "You" ∨
      (sharedItemOf s v it).purchasedBy = "") := by
  cases v with
  | none => simp [sharedItemOf]
  | some uid =>
    cases hany : (itemPurchases s it.id).any (fun p => p.userID == uid) with
    | true =>
      have hex := (any_itemPurchases s it.id uid).mp hany
      constructor
      · constructor
        · intro _
          exact ⟨uid, rfl, hex⟩
        · intro _
          simp [sharedItemOf, hany]
      · left
        simp [sharedItemOf, hany]
    | false =>
      have hnone : (sharedItemOf s (some uid) it).purchasedBy = "" := by
        simp [sharedItemOf, hany]
      constructor
      · rw [hnone]
        constructor
        · intro hcontra
          simp at hcontra
        · rintro ⟨uid2, huid2, hp⟩
          injection huid2 with huid2
          subst huid2
          exact absurd ((any_itemPurchases s it.id uid).mpr hp)
            (by simp [hany])
      · right
        exact hnone

/-- Redact the viewer-dependent annotation of a shared item. -/
def stripViewer (sit : SharedItem) : SharedItem :=
  { sit with purchasedBy := "" }

lemma map_stripViewer_sharedItemOf (s : DBState) (v : Option String)
    (l : List Item) :
    (l.map (sharedItemOf s v)).map stripViewer =
      l.map (fun it =>
        ⟨it.id, it.name, it.description, it.purchased, ""⟩) := by
  rw [List.map_map]
  rfl

/-! ## C1 -/

/-- The shared item for "i1" as seen by its purchaser "bob". -/
def sampleSharedItem : SharedItem :=
  { id := "i1", name := "Trek 520", description := ""
    purchased := true, purchasedBy := "You" }

/-- The shared view of the sample wishlist as seen by "bob". -/
def sampleSharedResponse : SharedWishlistResponse :=
  { id := "w1", title := "Bike", description := "", createdAt := "t0"
    items := [sampleSharedItem] }

/-- C1 counterexample: viewer "bob" holds a Purchase on item "i1", yet
the shared view annotates the item with the literal "You", not "you",
so no item of the response carries `purchased_by = "you"`. -/
theorem C1_counterexample :
    (∃ p ∈ sampleState.purchases, p.itemID = "i1" ∧ p.userID = "bob") ∧
    GetSharedWishlist sampleState "tok" (some "bob") false =
      .ok sampleSharedResponse ∧
    sampleSharedItem.purchasedBy = "You" ∧
    ("You" : String) ≠ "you" := by
  refine ⟨⟨samplePurchase, ?_, rfl, rfl⟩, rfl, rfl, by decide⟩
  simp [sampleState]

/-- C1 (amended: the annotation literal is "You", capitalised, not
"you"): in every shared-view response, an item carries
`purchased_by = "You"` iff the viewer is an authenticated user holding a
Purchase on that item; every other viewer (anonymous, the owner, or a
different purchaser) gets no purchaser field for it (`purchasedBy = ""`,
omitted by `omitempty`). -/
theorem C1_shared_purchasedBy_iff (s : DBState) (tok : String)
    (viewer : Option String) (resp : SharedWishlistResponse)
    (sit : SharedItem)
    (h : GetSharedWishlist s tok viewer false = .ok resp)
    (hsit : sit ∈ resp.items) :
    (sit.purchasedBy = "You" ↔
      ∃ uid, viewer = some uid ∧
        ∃ p ∈ s.purchases, p.itemID = sit.id ∧ p.userID = uid) ∧
    (sit.purchasedBy = "You" ∨ sit.purchasedBy = "") := by
  rcases GetSharedWishlist_ok s tok viewer resp h with
    ⟨share, hshare, w, hw, rfl⟩
  simp only [List.mem_map] at hsit
  rcases hsit with ⟨it, hit, rfl⟩
  exact sharedItemOf_purchasedBy s viewer it

/-- C1 witness: the amended iff evaluated for viewer "bob" on the sample
store. -/
theorem C1_shared_purchasedBy_iff_witness :
    (sampleSharedItem.purchasedBy = "You" ↔
      ∃ uid, (some "bob" : Option String) = some uid ∧
        ∃ p ∈ sampleState.purchases,
          p.itemID = sampleSharedItem.id ∧ p.userID = uid) ∧
    (sampleSharedItem.purchasedBy = "You" ∨
      sampleSharedItem.purchasedBy = "") :=
  C1_shared_purchasedBy_iff sampleState "tok" (some "bob")
    sampleSharedResponse sampleSharedItem rfl (by decide)

/-! ## C9 -/

/-- The shared view of the sample wishlist as seen anonymously. -/
def sampleSharedResponseAnon : SharedWishlistResponse :=
  { id := "w1", title := "Bike", description := "", createdAt := "t0"
    items := [{ id := "i1", name := "Trek 520", description := ""
                purchased := true, purchasedBy := "" }] }

/-- C9: two viewers of the same share token receive responses that agree
on every field except the `purchased_by` annotations; each annotation is
either absent (empty string) or the literal "You", and "You" appears
only when the first viewer is an authenticated user holding a Purchase
on that item — no purchaser id, name or other identifying value ever
appears. -/
theorem C9_viewer_noninterference (s : DBState) (tok : String)
    (v1 v2 : Option String) (r1 r2 : SharedWishlistResponse)
    (sit : SharedItem)
    (h1 : GetSharedWishlist s tok v1 false = .ok r1)
    (h2 : GetSharedWishlist s tok v2 false = .ok r2)
    (hsit : sit ∈ r1.items) :
    r1.id = r2.id ∧ r1.title = r2.title ∧
    r1.description = r2.description ∧ r1.createdAt = r2.createdAt ∧
    r1.items.map stripViewer = r2.items.map stripViewer ∧
    (sit.purchasedBy = "" ∨ sit.purchasedBy = "You") ∧
    (sit.purchasedBy = "You" →
      ∃ uid, v1 = some uid ∧
        ∃ p ∈ s.purchases, p.itemID = sit.id ∧ p.userID = uid) := by
  rcases GetSharedWishlist_ok s tok v1 r1 h1 with
    ⟨share, hshare, w, hw, rfl⟩
  rcases GetSharedWishlist_ok s tok v2 r2 h2 with
    ⟨share2, hshare2, w2, hw2, rfl⟩
  rw [hshare] at hshare2
  injection hshare2 with hshare2
  subst hshare2
  rw [hw] at hw2
  injection hw2 with hw2
  subst hw2
  refine ⟨rfl, rfl, rfl, rfl, ?_, ?_, ?_⟩
  · rw [map_stripViewer_sharedItemOf, map_stripViewer_sharedItemOf]
  · simp only [List.mem_map] at hsit
    rcases hsit with ⟨it, hit, rfl⟩
    exact (sharedItemOf_purchasedBy s v1 it).2.symm
  · simp only [List.mem_map] at hsit
    rcases hsit with ⟨it, hit, rfl⟩
    exact (sharedItemOf_purchasedBy s v1 it).1.mp

/-- C9 witness: viewers "bob" and anonymous on the sample store. -/
theorem C9_viewer_noninterference_witness :
    sampleSharedResponse.id = sampleSharedResponseAnon.id ∧
    sampleSharedResponse.title = sampleSharedResponseAnon.title ∧
    sampleSharedResponse.description = sampleSharedResponseAnon.description ∧
    sampleSharedResponse.createdAt = sampleSharedResponseAnon.createdAt ∧
    sampleSharedResponse.items.map stripViewer =
      sampleSharedResponseAnon.items.map stripViewer ∧
    (sampleSharedItem.purchasedBy = "" ∨
      sampleSharedItem.purchasedBy = "You") ∧
    (sampleSharedItem.purchasedBy = "You" →
      ∃ uid, (some "bob" : Option String) = some uid ∧
        ∃ p ∈ sampleState.purchases,
          p.itemID = sampleSharedItem.id ∧ p.userID = uid) :=
  C9_viewer_noninterference sampleState "tok" (some "bob") none
    sampleSharedResponse sampleSharedResponseAnon sampleSharedItem
    rfl rfl (by decide)

/-! ## C2 -/

/-- The owner view of the sample wishlist. -/
def sampleOwnerView : OwnerWishlistView :=
  { id := "w1", title := "Bike", description := "", createdAt := "t0"
    items := [{ id := "i1", name := "Trek 520", description := ""
                purchased := true, createdAt := "t1" }] }

/-- C2: the owner view is independent of the purchases table (swapping
it for any other leaves the response unchanged), and each item of a
successful owner view is exactly the five-field projection
`ownerItemView` (id, name, description, purchased, created_at) — so no
purchaser identity can occur in it. -/
theorem C2_owner_view_fields (s : DBState) (P Q : List Purchase)
    (wid : String) (uid : Option String) (ff : Bool)
    (view : OwnerWishlistView)
    (h : GetWishlist s wid uid ff = .ok view) :
    GetWishlist { s with purchases := P } wid uid ff =
      GetWishlist { s with purchases := Q } wid uid ff ∧
    view.items = (wishlistItems s wid).map ownerItemView := by
  refine ⟨rfl, ?_⟩
  unfold GetWishlist at h
  split at h
  · simp at h
  · split at h
    · simp at h
    · split at h
      · simp at h
      · split at h
        · simp at h
        · injection h with h2
          rw [← h2]

/-- C2 witness: owner "alice" on the sample store, with the purchases
table swapped between bob's purchase and nothing. -/
theorem C2_owner_view_fields_witness :
    GetWishlist { sampleState with purchases := [samplePurchase] } "w1"
        (some "alice") false =
      GetWishlist { sampleState with purchases := [] } "w1"
        (some "alice") false ∧
    sampleOwnerView.items = (wishlistItems sampleState "w1").map ownerItemView :=
  C2_owner_view_fields sampleState [samplePurchase] [] "w1" (some "alice")
    false sampleOwnerView rfl

/-! ## C3 -/

/-- C3: when a Purchase by the caller on the item already exists,
PurchaseItem answers already-purchased (the Conflict outcome) and leaves
the store untouched — in particular no second Purchase row for the
(item, user) pair is inserted. -/
theorem C3_duplicate_purchase_conflict (s : DBState)
    (iid uid pid now : String) (cf : Bool)
    (hitem : (s.items.find? (fun it => it.id == iid)).isSome)
    (hex : ∃ p ∈ s.purchases, p.itemID = iid ∧ p.userID = uid) :
    PurchaseItem s iid (some uid) pid now false cf =
      (.alreadyPurchased, s) := by
  rcases Option.isSome_iff_exists.mp hitem with ⟨item, hitemeq⟩
  have hfind : (s.purchases.find?
      (fun p => p.itemID == iid && p.userID == uid)).isSome := by
    rw [List.find?_isSome]
    rcases hex with ⟨p, hp, h1, h2⟩
    exact ⟨p, hp, by simp [h1, h2]⟩
  rcases Option.isSome_iff_exists.mp hfind with ⟨p0, hp0⟩
  simp [PurchaseItem, hitemeq, hp0]

/-- C3 witness: "bob" tries to purchase item "i1" a second time. -/
theorem C3_duplicate_purchase_conflict_witness :
    PurchaseItem sampleState "i1" (some "bob") "p9" "t9" false false =
      (.alreadyPurchased, sampleState) :=
  C3_duplicate_purchase_conflict sampleState "i1" "bob" "p9" "t9" false
    (by decide) ⟨samplePurchase, by decide, rfl, rfl⟩

/-! ## C4 -/

/-- A Share whose `expiresAt` is set (nonzero) and lies before the
reference instant 10. -/
def expiredShare : Share :=
  { id := "s2", wishlistID := "w2", token := "exptok", createdAt := 1
    expiresAt := 5 }

/-- A store holding only `expiredShare` and its wishlist. -/
def expiredShareState : DBState :=
  { users := []
    wishlists := [{ id := "w2", userID := "carol", title := "Books"
                    description := "", createdAt := "t5" }]
    items := [], purchases := [], shares := [expiredShare] }

/-- C4 counterexample: a Share with `expires_at` set and in the past
(5 < 10, taking 10 as the current instant) still resolves to the
wishlist — GetSharedWishlist consults no clock, the expiry check in the
source being commented out — contradicting the claim that such a token
fails with ExpiredOrInvalidShare. -/
theorem C4_counterexample :
    (∃ sh ∈ expiredShareState.shares,
      sh.token = "exptok" ∧ sh.expiresAt ≠ 0 ∧ sh.expiresAt < 10) ∧
    GetSharedWishlist expiredShareState "exptok" none false ≠
      .invalidOrExpired ∧
    GetSharedWishlist expiredShareState "exptok" none false =
      .ok { id := "w2", title := "Books", description := ""
            createdAt := "t5", items := [] } := by
  refine ⟨⟨expiredShare, by decide, rfl, by decide, by decide⟩,
    by decide, rfl⟩

/-- C4 (amended: the expiry clause does not hold — the code never
consults `expires_at`): resolution fails with invalid-or-expired exactly
when no Share with that exact token exists; and a token freshly issued
by ShareWishlist (stored with no `expires_at`) resolves successfully —
at any later time, since the resolution reads no clock. -/
theorem C4_token_resolution (s : DBState) (tok : String)
    (v : Option String) :
    (GetSharedWishlist s tok v false = .invalidOrExpired ↔
      s.shares.find? (fun sh => sh.token == tok) = none) ∧
    (∀ wid uid sid now link s2, (∀ sh ∈ s.shares, sh.token ≠ tok) →
      ShareWishlist s wid (some uid) tok sid now false false =
        (.ok link, s2) →
      ∃ resp, GetSharedWishlist s2 tok v false = .ok resp) := by
  constructor
  · unfold GetSharedWishlist
    simp only [Bool.false_eq_true, if_false]
    cases hf : s.shares.find? (fun sh => sh.token == tok) with
    | none => simp
    | some share =>
      cases hw : s.wishlists.find? (fun x => x.id == share.wishlistID) with
      | none => simp [hw]
      | some w => simp [hw]
  · intro wid uid sid now link s2 hfresh hsh
    unfold ShareWishlist at hsh
    simp only [Bool.false_eq_true, if_false] at hsh
    split at hsh
    · simp at hsh
    · rename_i w hw
      split at hsh
      · simp at hsh
      · rw [Prod.mk.injEq] at hsh
        obtain ⟨-, hs2⟩ := hsh
        subst hs2
        have hpref : s.shares.find? (fun sh => sh.token == tok) = none := by
          rw [List.find?_eq_none]
          intro sh hmem
          simp [hfresh sh hmem]
        have hfind : ((s.shares ++
            [(⟨sid, wid, tok, now, 0⟩ : Share)]).find?
              (fun sh => sh.token == tok)) =
            some ⟨sid, wid, tok, now, 0⟩ := by
          rw [find?_append_none _ _ hpref]
          rw [List.find?_cons_of_pos _ (by simp)]
        refine ⟨⟨w.id, w.title, w.description, w.createdAt,
          (wishlistItems s wid).map (sharedItemOf s v)⟩, ?_⟩
        unfold GetSharedWishlist
        simp only [Bool.false_eq_true, if_false, hfind, hw]
        rfl

/-- C4 witness: the amended statement evaluated on the sample store with
the fresh token "tok2". -/
theorem C4_token_resolution_witness :
    (GetSharedWishlist sampleState "tok2" none false = .invalidOrExpired ↔
      sampleState.shares.find? (fun sh => sh.token == "tok2") = none) ∧
    (∃ resp,
      GetSharedWishlist
        { sampleState with shares := sampleState.shares ++
            [⟨"s9", "w1", "tok2", 4, 0⟩] } "tok2" none false = .ok resp) :=
  ⟨(C4_token_resolution sampleState "tok2" none).1,
   (C4_token_resolution sampleState "tok2" none).2 "w1" "alice" "s9" 4
     "http://yourfrontend.com/shared/tok2"
     { sampleState with shares := sampleState.shares ++
         [⟨"s9", "w1", "tok2", 4, 0⟩] }
     (by decide) rfl⟩

/-! ## C6 -/

/-- C6: for an existing wishlist and an authenticated caller who is not
its owner, GetWishlist, AddItem and ShareWishlist all answer forbidden
(a bare constructor carrying no wishlist data) and leave the store
untouched; an unauthenticated caller (with well-formed input on the
AddItem path) is answered unauthenticated, again without mutation. -/
theorem C6_owner_only_paths (s : DBState) (wid uid : String) (w : Wishlist)
    (inp : AddItemInput) (nid nows tok sid : String) (now : Nat) (cf : Bool)
    (hw : s.wishlists.find? (fun x => x.id == wid) = some w)
    (hne : w.userID ≠ uid) (hinp : inp.name ≠ "") :
    GetWishlist s wid (some uid) false = .forbidden ∧
    AddItem s wid inp (some uid) nid nows false cf = (.forbidden, s) ∧
    ShareWishlist s wid (some uid) tok sid now false cf = (.forbidden, s) ∧
    GetWishlist s wid none false = .unauthenticated ∧
    AddItem s wid inp none nid nows false cf = (.unauthenticated, s) ∧
    ShareWishlist s wid none tok sid now false cf =
      (.unauthenticated, s) := by
  have hbne : (w.userID != uid) = true := by simp [hne]
  refine ⟨?_, ?_, ?_, rfl, ?_, rfl⟩
  · simp [GetWishlist, hw, hbne]
  · simp [AddItem, hw, hbne, hinp]
  · simp [ShareWishlist, hw, hbne]
  · simp [AddItem, hinp]

/-- C6 witness: non-owner "bob" and the anonymous caller against the
sample wishlist "w1". -/
theorem C6_owner_only_paths_witness :
    GetWishlist sampleState "w1" (some "bob") false = .forbidden ∧
    AddItem sampleState "w1" ⟨"Socks", ""⟩ (some "bob") "i9" "t9"
      false false = (.forbidden, sampleState) ∧
    ShareWishlist sampleState "w1" (some "bob") "tk9" "s9" 3
      false false = (.forbidden, sampleState) ∧
    GetWishlist sampleState "w1" none false = .unauthenticated ∧
    AddItem sampleState "w1" ⟨"Socks", ""⟩ none "i9" "t9"
      false false = (.unauthenticated, sampleState) ∧
    ShareWishlist sampleState "w1" none "tk9" "s9" 3
      false false = (.unauthenticated, sampleState) :=
  C6_owner_only_paths sampleState "w1" "bob" sampleWishlist ⟨"Socks", ""⟩
    "i9" "t9" "tk9" "s9" 3 false rfl (by decide) (by decide)

/-! ## C7 -/

/-- C7: PurchaseItem succeeds for any authenticated caller with no prior
Purchase on the existing item — no hypothesis relates the caller to the
wishlist owner, so in particular the owner may purchase their own item
(see the witness). -/
theorem C7_purchase_any_authenticated (s : DBState)
    (iid uid pid now : String) (item : Item)
    (hitem : s.items.find? (fun it => it.id == iid) = some item)
    (hnop : s.purchases.find?
      (fun p => p.itemID == iid && p.userID == uid) = none) :
    PurchaseItem s iid (some uid) pid now false false =
      (.ok, { s with
        purchases := s.purchases ++ [⟨pid, iid, uid, now⟩]
        items := s.items.map (fun it =>
          if it.id == item.id then { it with purchased := true }
          else it) }) := by
  simp [PurchaseItem, hitem, hnop]

/-- C7 witness: "alice", the owner of wishlist "w1" containing item
"i1", records a Purchase on her own item. -/
theorem C7_purchase_any_authenticated_witness :
    sampleWishlist.userID = "alice" ∧
    sampleItem.wishlistID = sampleWishlist.id ∧
    PurchaseItem sampleState "i1" (some "alice") "p2" "t3" false false =
      (.ok, { sampleState with
        purchases := sampleState.purchases ++ [⟨"p2", "i1", "alice", "t3"⟩]
        items := sampleState.items.map (fun it =>
          if it.id == sampleItem.id then { it with purchased := true }
          else it) }) :=
  ⟨rfl, rfl, C7_purchase_any_authenticated sampleState "i1" "alice" "p2"
    "t3" sampleItem rfl rfl⟩

/-! ## C8 -/

/-- C8: a successful ShareWishlist call appends exactly one Share (with
the generated token, no expiry) to the existing ones, and any token that
resolved to a response before the call resolves to the same response
after it — no revocation. -/
theorem C8_share_appends (s : DBState) (wid uid tok sid : String)
    (now : Nat) (link : String) (s2 : DBState) (t : String)
    (v : Option String) (resp : SharedWishlistResponse)
    (hsh : ShareWishlist s wid (some uid) tok sid now false false =
      (.ok link, s2))
    (hres : GetSharedWishlist s t v false = .ok resp) :
    s2 = { s with shares := s.shares ++ [⟨sid, wid, tok, now, 0⟩] } ∧
    GetSharedWishlist s2 t v false = .ok resp := by
  unfold ShareWishlist at hsh
  simp only [Bool.false_eq_true, if_false] at hsh
  split at hsh
  · simp at hsh
  · rename_i w hw
    split at hsh
    · simp at hsh
    · rw [Prod.mk.injEq] at hsh
      obtain ⟨-, hs2⟩ := hsh
      subst hs2
      refine ⟨rfl, ?_⟩
      rcases GetSharedWishlist_ok s t v resp hres with
        ⟨share, hshare, w2, hw2, rfl⟩
      have hfind := find?_append_some (fun sh => sh.token == t)
        [(⟨sid, wid, tok, now, 0⟩ : Share)] hshare
      unfold GetSharedWishlist
      simp only [Bool.false_eq_true, if_false, hfind, hw2]
      rfl

/-- C8 witness: issuing token "tok2" on the sample store keeps the old
token "tok" resolving to "bob"'s view. -/
theorem C8_share_appends_witness :
    ({ sampleState with shares := sampleState.shares ++
        [⟨"s9", "w1", "tok2", 4, 0⟩] } : DBState) =
      { sampleState with shares := sampleState.shares ++
          [⟨"s9", "w1", "tok2", 4, 0⟩] } ∧
    GetSharedWishlist
      { sampleState with shares := sampleState.shares ++
          [⟨"s9", "w1", "tok2", 4, 0⟩] } "tok" (some "bob") false =
      .ok sampleSharedResponse :=
  C8_share_appends sampleState "w1" "alice" "tok2" "s9" 4
    "http://yourfrontend.com/shared/tok2"
    { sampleState with shares := sampleState.shares ++
        [⟨"s9", "w1", "tok2", 4, 0⟩] } "tok" (some "bob")
    sampleSharedResponse rfl rfl

/-! ## C10 -/

/-- C10: whenever PurchaseItem answers anything but success
(unauthenticated, item not found, already purchased, or a storage
failure on the fetch or on the insert), the store is unchanged — no
Purchase row is created and no purchased flag is modified. -/
theorem C10_error_preserves_state (s : DBState) (iid : String)
    (uid : Option String) (pid now : String) (ff cf : Bool)
    (h : (PurchaseItem s iid uid pid now ff cf).1 ≠ .ok) :
    (PurchaseItem s iid uid pid now ff cf).2 = s := by
  rcases PurchaseItem_state s iid uid pid now ff cf with
    hs | ⟨u, item, huid, hitem, hok, hs⟩
  · exact hs
  · exact absurd hok h

/-- C10 witness: the duplicate-purchase error by "bob" leaves the sample
store unchanged. -/
theorem C10_error_preserves_state_witness :
    (PurchaseItem sampleState "i1" (some "bob") "p9" "t9" false false).2 =
      sampleState :=
  C10_error_preserves_state sampleState "i1" (some "bob") "p9" "t9"
    false false (by decide)

end WishlistApp
